import Mathlib

/-!
Verification of the solfs-sdk client library (Solana-File-System/solfs-sdk).

The development shallowly embeds the instruction-serialization layer
(`src/src/utils/serialization.ts`) and the `DataStoreProgram` builder class
of the SDK.  Bytes are modelled as `Nat` (each byte a value below 256),
byte buffers as `List Nat`, JavaScript exceptions as `Except String`, and
JavaScript values that may be `undefined` at runtime as `Option`.
External library routines the SDK calls (`sha256` from noble-hashes, the
borsh binary layout, base58, and `PublicKey.findProgramAddressSync` with
its ed25519 point-decompression check from web3.js) are embedded from their
published specifications, since the SDK's wire format is defined in terms
of them.
-/

/-- Little-endian 32-bit encoding of a value below 2^32, as four bytes. -/
def u32le (n : Nat) : List Nat :=
  [n % 256, n / 256 % 256, n / 65536 % 256, n / 16777216 % 256]

/-- Little-endian 64-bit encoding of a value below 2^64, as eight bytes. -/
def u64le (n : Nat) : List Nat :=
  [n % 256, n / 256 % 256, n / 65536 % 256, n / 16777216 % 256,
   n / 4294967296 % 256, n / 1099511627776 % 256,
   n / 281474976710656 % 256, n / 72057594037927936 % 256]

/-- Big-endian 32-bit encoding, as four bytes. -/
def u32be (n : Nat) : List Nat :=
  [n / 16777216 % 256, n / 65536 % 256, n / 256 % 256, n % 256]

/-- Big-endian 64-bit encoding, as eight bytes. -/
def u64be (n : Nat) : List Nat :=
  [n / 72057594037927936 % 256, n / 281474976710656 % 256,
   n / 1099511627776 % 256, n / 4294967296 % 256,
   n / 16777216 % 256, n / 65536 % 256, n / 256 % 256, n % 256]

/-- The value of a little-endian byte list. -/
def leVal (bs : List Nat) : Nat :=
  bs.foldr (fun b acc => b + 256 * acc) 0

/-- The value of a big-endian byte list. -/
def beVal (bs : List Nat) : Nat :=
  bs.foldl (fun acc b => acc * 256 + b) 0

/-- Big-endian encoding of a value into a fixed number of bytes. -/
def natToBEBytes : Nat → Nat → List Nat
  | 0, _ => []
  | w + 1, n => natToBEBytes w (n / 256) ++ [n % 256]

/-- One byte of a borsh-encoded boolean: 1 for true, 0 for false. -/
def boolByte (b : Bool) : List Nat :=
  [if b then 1 else 0]

/- ## SHA-256 (noble-hashes `sha256`, per FIPS 180-4) -/

/-- 2^32, the word modulus of SHA-256. -/
def w32 : Nat := 4294967296

/-- Right rotation of a 32-bit word by `n` places. -/
def rotr32 (n x : Nat) : Nat :=
  (x / 2 ^ n + x * 2 ^ (32 - n)) % w32

/-- SHA-256 message-schedule sigma-0. -/
def ssig0 (x : Nat) : Nat :=
  rotr32 7 x ^^^ rotr32 18 x ^^^ x / 8

/-- SHA-256 message-schedule sigma-1. -/
def ssig1 (x : Nat) : Nat :=
  rotr32 17 x ^^^ rotr32 19 x ^^^ x / 1024

/-- SHA-256 round function Sigma-0. -/
def bsig0 (x : Nat) : Nat :=
  rotr32 2 x ^^^ rotr32 13 x ^^^ rotr32 22 x

/-- SHA-256 round function Sigma-1. -/
def bsig1 (x : Nat) : Nat :=
  rotr32 6 x ^^^ rotr32 11 x ^^^ rotr32 25 x

/-- The eight 32-bit words of a SHA-256 hash state. -/
structure Sha256State where
  a : Nat
  b : Nat
  c : Nat
  d : Nat
  e : Nat
  f : Nat
  g : Nat
  h : Nat

/-- The SHA-256 initial hash value. -/
def sha256InitState : Sha256State :=
  ⟨1779033703, 3144134277, 1013904242, 2773480762,
   1359893119, 2600822924, 528734635, 1541459225⟩

/-- The 64 SHA-256 round constants. -/
def sha256K : List Nat :=
  [1116352408, 1899447441, 3049323471, 3921009573, 961987163, 1508970993,
   2453635748, 2870763221, 3624381080, 310598401, 607225278, 1426881987,
   1925078388, 2162078206, 2614888103, 3248222580, 3835390401, 4022224774,
   264347078, 604807628, 770255983, 1249150122, 1555081692, 1996064986,
   2554220882, 2821834349, 2952996808, 3210313671, 3336571891, 3584528711,
   113926993, 338241895, 666307205, 773529912, 1294757372, 1396182291,
   1695183700, 1986661051, 2177026350, 2456956037, 2730485921, 2820302411,
   3259730800, 3345764771, 3516065817, 3600352804, 4094571909, 275423344,
   430227734, 506948616, 659060556, 883997877, 958139571, 1322822218,
   1537002063, 1747873779, 1955562222, 2024104815, 2227730452, 2361852424,
   2428436474, 2756734187, 3204031479, 3329325298]

/-- Group a byte list into big-endian 32-bit words, four bytes per word. -/
def bytesToWordsBE : List Nat → List Nat
  | b0 :: b1 :: b2 :: b3 :: rest =>
      (((b0 * 256 + b1) * 256 + b2) * 256 + b3) :: bytesToWordsBE rest
  | _ => []

/-- Apply a function `n` times. -/
def iterApply {α : Type} (f : α → α) : Nat → α → α
  | 0, x => x
  | n + 1, x => iterApply f n (f x)

/-- One extension step of the SHA-256 message schedule, on the reversed
word list (most recent word first). -/
def schedStep (rws : List Nat) : List Nat :=
  ((rws.getD 15 0 + ssig0 (rws.getD 14 0) + rws.getD 6 0
      + ssig1 (rws.getD 1 0)) % w32) :: rws

/-- The 64-word message schedule of one 64-byte chunk. -/
def sha256Schedule (chunk : List Nat) : List Nat :=
  (iterApply schedStep 48 (bytesToWordsBE chunk).reverse).reverse

/-- One SHA-256 compression round, consuming a round constant paired with a
schedule word. -/
def compressStep (s : Sha256State) (kw : Nat × Nat) : Sha256State :=
  let s1 := bsig1 s.e
  let ch := (s.e &&& s.f) ^^^ ((s.e ^^^ 4294967295) &&& s.g)
  let t1 := (s.h + s1 + ch + kw.1 + kw.2) % w32
  let s0 := bsig0 s.a
  let maj := (s.a &&& s.b) ^^^ (s.a &&& s.c) ^^^ (s.b &&& s.c)
  let t2 := (s0 + maj) % w32
  ⟨(t1 + t2) % w32, s.a, s.b, s.c, (s.d + t1) % w32, s.e, s.f, s.g⟩

/-- Compress one 64-byte chunk into the running hash state. -/
def compressChunk (s : Sha256State) (chunk : List Nat) : Sha256State :=
  let t := (sha256K.zip (sha256Schedule chunk)).foldl compressStep s
  ⟨(s.a + t.a) % w32, (s.b + t.b) % w32, (s.c + t.c) % w32, (s.d + t.d) % w32,
   (s.e + t.e) % w32, (s.f + t.f) % w32, (s.g + t.g) % w32, (s.h + t.h) % w32⟩

/-- SHA-256 padding: a 0x80 byte, zeros to 56 mod 64, and the bit length
as a big-endian 64-bit value. -/
def sha256Pad (msg : List Nat) : List Nat :=
  msg ++ [128] ++ List.replicate ((119 - msg.length % 64) % 64) 0
      ++ u64be (8 * msg.length)

/-- Split a byte list into 64-byte chunks (first argument is fuel). -/
def toChunks : Nat → List Nat → List (List Nat)
  | 0, _ => []
  | _, [] => []
  | fuel + 1, bs => bs.take 64 :: toChunks fuel (bs.drop 64)

/-- SHA-256 of a byte list, as the 32-byte digest. -/
def sha256 (msg : List Nat) : List Nat :=
  let padded := sha256Pad msg
  let s := (toChunks padded.length padded).foldl compressChunk sha256InitState
  u32be s.a ++ u32be s.b ++ u32be s.c ++ u32be s.d
    ++ u32be s.e ++ u32be s.f ++ u32be s.g ++ u32be s.h

/- ## Base58 (bs58 / web3.js `PublicKey` string form) -/

/-- The base58 alphabet used by bs58 and web3.js. -/
def base58Alphabet : List Char :=
  "123456789ABCDEFGHJKLMNPQRSTUVWXYZabcdefghijkmnopqrstuvwxyz".toList

/-- The digit value of a base58 character (58 when off the alphabet). -/
def base58Index (c : Char) : Nat :=
  (base58Alphabet.indexOf c)

/-- The numeric value of a base58 string. -/
def base58DecodeVal (s : String) : Nat :=
  s.data.foldl (fun acc c => acc * 58 + base58Index c) 0

/-- The base58 digits of a value, least significant first (first argument
is fuel). -/
def base58DigitsAux : Nat → Nat → List Nat
  | 0, _ => []
  | _, 0 => []
  | fuel + 1, n => n % 58 :: base58DigitsAux fuel (n / 58)

/-- bs58 encoding of a byte list: a `1` per leading zero byte, then the
base58 digits of the big-endian value. -/
def base58Encode (bs : List Nat) : String :=
  let zeros := (bs.takeWhile (· == 0)).length
  let digits := (base58DigitsAux (2 * bs.length) (beVal bs)).reverse
  String.mk (List.replicate zeros '1' ++ digits.map (fun d => base58Alphabet.getD d '1'))

/- ## Ed25519 point decompression (noble ed25519, per RFC 8032 §5.1.3),
used by web3.js `PublicKey.isOnCurve` -/

/-- The ed25519 field prime 2^255 - 19. -/
def ed25519P : Nat := 2 ^ 255 - 19

/-- The ed25519 curve constant d. -/
def ed25519D : Nat :=
  37095705934669439343138083508754565189542113879843219016388785533085940283555

/-- Modular exponentiation, square-and-multiply (first argument is fuel). -/
def powModAux : Nat → Nat → Nat → Nat → Nat
  | 0, _, _, _ => 1
  | fuel + 1, b, e, m =>
      if e = 0 then 1 % m
      else
        let r := powModAux fuel (b * b % m) (e / 2) m
        if e % 2 = 1 then b * r % m else r

/-- `b ^ e mod m`. -/
def powMod (b e m : Nat) : Nat :=
  powModAux 300 (b % m) e m

/-- The square root of -1 modulo the ed25519 prime, as used in RFC 8032
decompression. -/
def ed25519SqrtM1 : Nat :=
  powMod 2 ((ed25519P - 1) / 4) ed25519P

/-- Whether 32 bytes decompress to a point of the ed25519 curve
(web3.js `PublicKey.isOnCurve`, RFC 8032 §5.1.3). -/
def isOnCurve (bytes : List Nat) : Bool :=
  if bytes.length ≠ 32 then false
  else
    let full := leVal bytes
    let sign := full / 2 ^ 255
    let y := full % 2 ^ 255
    if ed25519P ≤ y then false
    else
      let y2 := y * y % ed25519P
      let u := (y2 + ed25519P - 1) % ed25519P
      let v := (ed25519D * y2 + 1) % ed25519P
      let x1 := u * powMod v 3 ed25519P % ed25519P
          * powMod (u * powMod v 7 ed25519P) ((ed25519P - 5) / 8) ed25519P % ed25519P
      let vx2 := v * (x1 * x1 % ed25519P) % ed25519P
      if vx2 = u then !(x1 = 0 && sign = 1)
      else if vx2 = (ed25519P - u) % ed25519P then
        let x2 := x1 * ed25519SqrtM1 % ed25519P
        !(x2 = 0 && sign = 1)
      else false

/- ## web3.js model: keys, instructions, program-derived addresses -/

/-- A Solana public key: 32 bytes (web3.js `PublicKey`). -/
structure PublicKey where
  bytes : List Nat
deriving DecidableEq

/-- One account of an instruction's key list (web3.js `AccountMeta`). -/
structure AccountMeta where
  pubkey : List Nat
  isSigner : Bool
  isWritable : Bool
deriving DecidableEq

/-- A built instruction (web3.js `TransactionInstruction`).  The `data`
field records the result of instruction-data serialization: the byte
buffer, or the serialization error the SDK would raise while building. -/
structure TransactionInstruction where
  keys : List AccountMeta
  programId : List Nat
  data : Except String (List Nat)

/-- The system program id, base58 `11111111111111111111111111111111`:
32 zero bytes. -/
def systemProgramId : List Nat := List.replicate 32 0

/-- The ASCII marker web3.js appends when hashing program-derived
addresses. -/
def pdaMarker : List Nat :=
  "ProgramDerivedAddress".data.map Char.toNat

/-- web3.js `PublicKey.createProgramAddressSync`: reject a seed above 32
bytes (a `TypeError`), hash seeds ++ programId ++ marker with SHA-256, and
reject the digest when it lies on the ed25519 curve. -/
def createProgramAddressSync (seeds : List (List Nat)) (programId : List Nat) :
    Except String (List Nat) :=
  if seeds.any (fun s => 32 < s.length) then
    Except.error "TypeError: Max seed length exceeded"
  else
    let addr := sha256 (seeds.flatten ++ programId ++ pdaMarker)
    if isOnCurve addr then
      Except.error "Invalid seeds, address must fall off the curve"
    else Except.ok addr

/-- The bump search of web3.js `PublicKey.findProgramAddressSync`: try
bumps 255 down to 1, rethrow a `TypeError`, skip on-curve results. -/
def findProgramAddressAux (seeds : List (List Nat)) (programId : List Nat) :
    Nat → Except String (List Nat × Nat)
  | 0 => Except.error "Unable to find a viable program address nonce"
  | n + 1 =>
      match createProgramAddressSync (seeds ++ [[n + 1]]) programId with
      | Except.ok addr => Except.ok (addr, n + 1)
      | Except.error e =>
          if e = "TypeError: Max seed length exceeded" then Except.error e
          else findProgramAddressAux seeds programId n

/-- web3.js `PublicKey.findProgramAddressSync`. -/
def findProgramAddressSync (seeds : List (List Nat)) (programId : List Nat) :
    Except String (List Nat × Nat) :=
  findProgramAddressAux seeds programId 255

/- ## Borsh field writers (borsh binary layout, as the schemas of
`src/src/utils/serialization.ts` use it) -/

/-- Check if a value fits an unsigned 8-bit borsh field and write it. -/
def writeU8 (n : Nat) : Except String (List Nat) :=
  if n < 256 then Except.ok [n] else Except.error "u8 out of range"

/-- Write a `u8` field whose JavaScript value may be `undefined`
(the serializer raises when it is). -/
def writeOptU8 : Option Nat → Except String (List Nat)
  | none => Except.error "Cannot serialize undefined as u8"
  | some n => writeU8 n

/-- Check if a value fits an unsigned 32-bit borsh field and write it
little-endian. -/
def writeU32 (n : Nat) : Except String (List Nat) :=
  if n < 4294967296 then Except.ok (u32le n) else Except.error "u32 out of range"

/-- Check if a value fits an unsigned 64-bit borsh field and write it
little-endian. -/
def writeU64 (n : Nat) : Except String (List Nat) :=
  if n < 18446744073709551616 then Except.ok (u64le n)
  else Except.error "u64 out of range"

/-- Write a fixed-length borsh byte array, checking the length. -/
def writeFixedBytes (len : Nat) (bs : List Nat) : Except String (List Nat) :=
  if bs.length = len then Except.ok bs
  else Except.error "Expecting byte array of fixed length"

/-- Write a variable-length borsh byte array: a little-endian `u32` count
followed by the bytes. -/
def writeVecBytes (bs : List Nat) : Except String (List Nat) :=
  match writeU32 bs.length with
  | Except.ok len => Except.ok (len ++ bs)
  | Except.error e => Except.error e

/- ## The instruction-argument classes of `serialization.ts` -/

/-- `InitializeDataStoreArgs`.  The TypeScript class declares `bumpSeed`
as a number, but `DataStoreProgram.initializeDataStore` constructs the
argument record without it, so at runtime the field may be `undefined`;
the field is therefore an `Option`. -/
structure InitializeDataStoreArgs where
  debug : Bool
  dataType : Nat
  bumpSeed : Option Nat
  isCreated : Bool
  space : Nat
  authority : List Nat
  isDynamic : Bool
deriving DecidableEq

/-- `UpdateDataStoreArgs`. -/
structure UpdateDataStoreArgs where
  debug : Bool
  dataHash : List Nat
  data : List Nat
  offset : Nat
  reallocDown : Bool
  dataType : Nat
deriving DecidableEq

/-- `UpdateDataStoreAuthorityArgs`. -/
structure UpdateDataStoreAuthorityArgs where
  debug : Bool
deriving DecidableEq

/-- `FinalizeDataStoreArgs`. -/
structure FinalizeDataStoreArgs where
  debug : Bool
deriving DecidableEq

/-- `CloseDataStoreArgs`. -/
structure CloseDataStoreArgs where
  debug : Bool
deriving DecidableEq

/-- Borsh serialization of `InitializeDataStoreArgs` per its schema:
debug, dataType, bumpSeed, isCreated, space, authority[32], isDynamic.
Fields are encoded (and fail) in schema order. -/
def serializeInitializeDataStoreArgs (a : InitializeDataStoreArgs) :
    Except String (List Nat) :=
  match writeU8 a.dataType, writeOptU8 a.bumpSeed, writeU64 a.space,
      writeFixedBytes 32 a.authority with
  | Except.ok dt, Except.ok bump, Except.ok sp, Except.ok auth =>
      Except.ok (boolByte a.debug ++ dt ++ bump ++ boolByte a.isCreated
        ++ sp ++ auth ++ boolByte a.isDynamic)
  | Except.error e, _, _, _ => Except.error e
  | _, Except.error e, _, _ => Except.error e
  | _, _, Except.error e, _ => Except.error e
  | _, _, _, Except.error e => Except.error e

/-- Borsh serialization of `UpdateDataStoreArgs` per its schema:
debug, dataHash[32], data (u32 length prefix), offset, reallocDown,
dataType. -/
def serializeUpdateDataStoreArgs (a : UpdateDataStoreArgs) :
    Except String (List Nat) :=
  match writeFixedBytes 32 a.dataHash, writeVecBytes a.data, writeU64 a.offset,
      writeU8 a.dataType with
  | Except.ok hash, Except.ok dat, Except.ok off, Except.ok dt =>
      Except.ok (boolByte a.debug ++ hash ++ dat ++ off
        ++ boolByte a.reallocDown ++ dt)
  | Except.error e, _, _, _ => Except.error e
  | _, Except.error e, _, _ => Except.error e
  | _, _, Except.error e, _ => Except.error e
  | _, _, _, Except.error e => Except.error e

/-- An argument object handed to `serializeInstructionData`: an instance
of one of the five registered classes, or an object of any other class
(identified here only by its constructor's name). -/
inductive InstructionArgsObject where
  | initializeArgs (a : InitializeDataStoreArgs)
  | updateArgs (a : UpdateDataStoreArgs)
  | updateAuthorityArgs (a : UpdateDataStoreAuthorityArgs)
  | finalizeArgs (a : FinalizeDataStoreArgs)
  | closeArgs (a : CloseDataStoreArgs)
  | otherObject (ctorName : String)
deriving DecidableEq

/-- Whether the `schemas` map holds a schema for the object's
constructor. -/
def schemaRegistered : InstructionArgsObject → Bool
  | InstructionArgsObject.otherObject _ => false
  | _ => true

/-- `serializeInstructionData`: look the object's constructor up in
`schemas`; raise `Schema not found for instruction` when absent, else
borsh-serialize the object. -/
def serializeInstructionData : InstructionArgsObject → Except String (List Nat)
  | InstructionArgsObject.initializeArgs a => serializeInitializeDataStoreArgs a
  | InstructionArgsObject.updateArgs a => serializeUpdateDataStoreArgs a
  | InstructionArgsObject.updateAuthorityArgs a => Except.ok (boolByte a.debug)
  | InstructionArgsObject.finalizeArgs a => Except.ok (boolByte a.debug)
  | InstructionArgsObject.closeArgs a => Except.ok (boolByte a.debug)
  | InstructionArgsObject.otherObject _ =>
      Except.error "Schema not found for instruction"

/-- `calculateDataHash`: SHA-256 of the buffer. -/
def calculateDataHash (data : List Nat) : List Nat :=
  sha256 data

/-- `createInitializeDataStoreInstruction`.  Its TypeScript signature
requires `bumpSeed`, but the in-repo caller omits it, so the embedded
argument is an `Option`. -/
def createInitializeDataStoreInstruction (debug : Bool) (dataType : Nat)
    (bumpSeed : Option Nat) (isCreated : Bool) (space : Nat)
    (authority : List Nat) (isDynamic : Bool) : Except String (List Nat) :=
  serializeInstructionData (InstructionArgsObject.initializeArgs
    ⟨debug, dataType, bumpSeed, isCreated, space, authority, isDynamic⟩)

/-- `createUpdateDataStoreInstruction`: hash the data, then serialize an
`UpdateDataStoreArgs`. -/
def createUpdateDataStoreInstruction (debug : Bool) (data : List Nat)
    (offset : Nat) (reallocDown : Bool) (dataType : Nat) :
    Except String (List Nat) :=
  serializeInstructionData (InstructionArgsObject.updateArgs
    ⟨debug, calculateDataHash data, data, offset, reallocDown, dataType⟩)

/-- `createUpdateAuthorityInstruction`. -/
def createUpdateAuthorityInstruction (debug : Bool) : Except String (List Nat) :=
  serializeInstructionData (InstructionArgsObject.updateAuthorityArgs ⟨debug⟩)

/-- `createFinalizeInstruction`. -/
def createFinalizeInstruction (debug : Bool) : Except String (List Nat) :=
  serializeInstructionData (InstructionArgsObject.finalizeArgs ⟨debug⟩)

/-- `createCloseInstruction`. -/
def createCloseInstruction (debug : Bool) : Except String (List Nat) :=
  serializeInstructionData (InstructionArgsObject.closeArgs ⟨debug⟩)

/- ## The `DataStoreProgram` class of the SDK -/

/-- `DATA_STORE_PROGRAM_ID`, the 32 bytes of
`CxcgUrnSLjL7S44vLFxq6Jc7zscw5MUrZsobo711gmaq`. -/
def dataStoreProgramIdBytes : List Nat :=
  natToBEBytes 32 (base58DecodeVal "CxcgUrnSLjL7S44vLFxq6Jc7zscw5MUrZsobo711gmaq")

/-- `PDA_SEED`, the ASCII bytes of `data_store`. -/
def pdaSeedBytes : List Nat :=
  "data_store".data.map Char.toNat

/-- `DataStoreTypeOption.File`. -/
def DataStoreTypeOption.File : Nat := 0

/-- `DataStoreTypeOption.Directory`. -/
def DataStoreTypeOption.Directory : Nat := 1

/-- `SerializationStatusOption.Uninitialized`. -/
def SerializationStatusOption.Uninitialized : Nat := 0

/-- `SerializationStatusOption.Initialized`. -/
def SerializationStatusOption.Initialized : Nat := 1

/-- `SerializationStatusOption.Finalized`. -/
def SerializationStatusOption.Finalized : Nat := 2

/-- `DataStoreProgram.getPDA`: derive the metadata PDA of a data account
from the fixed seed, the account's bytes and the fixed program id. -/
def DataStoreProgram.getPDA (dataKey : PublicKey) :
    Except String (List Nat × Nat) :=
  findProgramAddressSync [pdaSeedBytes, dataKey.bytes] dataStoreProgramIdBytes

/-- `DataStoreProgram.initializeDataStore`.  Derives the PDA, builds the
creation payload — passing no `bumpSeed`, exactly as the source does —
and assembles the instruction. -/
def DataStoreProgram.initializeDataStore (feePayer dataAccount authority : PublicKey)
    (dataType : Nat) (isCreated : Bool) (space : Nat) (isDynamic : Bool)
    (debug : Option Bool) : Except String TransactionInstruction :=
  match DataStoreProgram.getPDA dataAccount with
  | Except.error e => Except.error e
  | Except.ok (pda, _) =>
      Except.ok
        { keys := [⟨feePayer.bytes, true, true⟩,
                   ⟨dataAccount.bytes, !isCreated, true⟩,
                   ⟨pda, false, true⟩,
                   ⟨systemProgramId, false, false⟩],
          programId := dataStoreProgramIdBytes,
          data := createInitializeDataStoreInstruction (debug.getD false)
            dataType none isCreated space authority.bytes isDynamic }

/-- `DataStoreProgram.updateDataStore`. -/
def DataStoreProgram.updateDataStore (authority dataAccount : PublicKey)
    (data : List Nat) (offset : Nat) (reallocDown : Bool) (dataType : Nat)
    (debug : Option Bool) : Except String TransactionInstruction :=
  match DataStoreProgram.getPDA dataAccount with
  | Except.error e => Except.error e
  | Except.ok (pda, _) =>
      Except.ok
        { keys := [⟨authority.bytes, true, true⟩,
                   ⟨dataAccount.bytes, false, true⟩,
                   ⟨pda, false, true⟩,
                   ⟨systemProgramId, false, false⟩],
          programId := dataStoreProgramIdBytes,
          data := createUpdateDataStoreInstruction (debug.getD false) data
            offset reallocDown dataType }

/-- `DataStoreProgram.updateDataStoreAuthority`. -/
def DataStoreProgram.updateDataStoreAuthority (oldAuthority dataAccount newAuthority : PublicKey)
    (debug : Option Bool) : Except String TransactionInstruction :=
  match DataStoreProgram.getPDA dataAccount with
  | Except.error e => Except.error e
  | Except.ok (pda, _) =>
      Except.ok
        { keys := [⟨oldAuthority.bytes, true, false⟩,
                   ⟨dataAccount.bytes, false, false⟩,
                   ⟨pda, false, true⟩,
                   ⟨newAuthority.bytes, true, false⟩],
          programId := dataStoreProgramIdBytes,
          data := createUpdateAuthorityInstruction (debug.getD false) }

/-- `DataStoreProgram.finalizeDataStore`. -/
def DataStoreProgram.finalizeDataStore (authority dataAccount : PublicKey)
    (debug : Option Bool) : Except String TransactionInstruction :=
  match DataStoreProgram.getPDA dataAccount with
  | Except.error e => Except.error e
  | Except.ok (pda, _) =>
      Except.ok
        { keys := [⟨authority.bytes, true, false⟩,
                   ⟨dataAccount.bytes, false, false⟩,
                   ⟨pda, false, true⟩],
          programId := dataStoreProgramIdBytes,
          data := createFinalizeInstruction (debug.getD false) }

/-- Modelled from the spec: `borshSerialize`, the serialization helper
`DataStoreProgram.closeDataStore` calls on `{ debug }`, is not present
under `src/`; per the spec the close payload is the debug flag only, so
the helper writes the one borsh boolean byte. -/
def borshSerialize (debug : Bool) : List Nat :=
  boolByte debug

/-- `DataStoreProgram.closeDataStore`. -/
def DataStoreProgram.closeDataStore (authority dataAccount : PublicKey)
    (debug : Option Bool) : Except String TransactionInstruction :=
  match DataStoreProgram.getPDA dataAccount with
  | Except.error e => Except.error e
  | Except.ok (pda, _) =>
      Except.ok
        { keys := [⟨authority.bytes, true, true⟩,
                   ⟨dataAccount.bytes, false, true⟩,
                   ⟨pda, false, true⟩],
          programId := dataStoreProgramIdBytes,
          data := Except.ok (borshSerialize (debug.getD false)) }

/- ## Metadata decoding -/

/-- The account info handed to `parseMetadataFromAccountInfo` (the `data`
buffer is the only field the function reads). -/
structure AccountInfo where
  data : List Nat
deriving DecidableEq

/-- The parsed record `parseMetadataFromAccountInfo` returns
(`IDataStoreAccountMetadata`): the authority is returned in base58
string form. -/
structure IDataStoreAccountMetadata where
  dataType : Nat
  authority : String
  dataStatus : Nat
  bumpSeed : Nat
  dataHash : List Nat
  isDynamic : Bool
  space : Nat
deriving DecidableEq

/-- The byte at an offset of a buffer (0 past the end). -/
def readU8At (bs : List Nat) (off : Nat) : Nat :=
  (bs.drop off).headD 0

/-- `len` bytes at an offset of a buffer. -/
def readBytesAt (bs : List Nat) (off len : Nat) : List Nat :=
  (bs.drop off).take len

/-- Modelled from the spec: `borshDeserialize`, the metadata decoder
`parseMetadataFromAccountInfo` calls, is not present under `src/`.  Per
the spec's data model the metadata record holds, in order, the data type,
the 32-byte authority identity, the status, the derivation nonce, the
32-byte content hash, the dynamic-sizing flag and the allocated-space
count (a 64-bit little-endian value) — 76 bytes; a buffer too short for
the record fails to decode. -/
def borshDeserialize (bs : List Nat) :
    Except String (Nat × List Nat × Nat × Nat × List Nat × Bool × Nat) :=
  if bs.length < 76 then Except.error "Failed to deserialize metadata account"
  else Except.ok
    (readU8At bs 0, readBytesAt bs 1 32, readU8At bs 33, readU8At bs 34,
     readBytesAt bs 35 32, readU8At bs 67 != 0, leVal (readBytesAt bs 68 8))

/-- `DataStoreProgram.parseMetadataFromAccountInfo`: raise
`Invalid metadata account data` on a null account info or an empty data
buffer, else decode the metadata and return it with the authority
base58-encoded. -/
def DataStoreProgram.parseMetadataFromAccountInfo (metadataInfo : Option AccountInfo) :
    Except String IDataStoreAccountMetadata :=
  match metadataInfo with
  | none => Except.error "Invalid metadata account data"
  | some info =>
      if info.data.length = 0 then Except.error "Invalid metadata account data"
      else
        match borshDeserialize info.data with
        | Except.error e => Except.error e
        | Except.ok (dataType, authority, dataStatus, bumpSeed, dataHash,
            isDynamic, space) =>
            Except.ok
              { dataType := dataType, authority := base58Encode authority,
                dataStatus := dataStatus, bumpSeed := bumpSeed,
                dataHash := dataHash, isDynamic := isDynamic, space := space }

/-- Modelled from the spec: the encoder of the metadata account layout
lives in the remote program, not in this repository; the spec fixes the
field order (data type, authority, status, nonce, content hash, dynamic
flag, allocated-space count) and the widths used above. -/
def serializeMetadata (dataType : Nat) (authority : List Nat) (dataStatus : Nat)
    (bumpSeed : Nat) (dataHash : List Nat) (isDynamic : Bool) (space : Nat) :
    List Nat :=
  [dataType] ++ authority ++ [dataStatus] ++ [bumpSeed] ++ dataHash
    ++ boolByte isDynamic ++ u64le space

/- ## Predicates used by the statements -/

/-- Whether an `Except` result is a success. -/
def exceptOk {α : Type} : Except String α → Bool
  | Except.ok _ => true
  | Except.error _ => false

/-- The field values of an argument object fit its registered schema: every
field is a defined value of the declared width. -/
def wellFormedArgs : InstructionArgsObject → Prop
  | InstructionArgsObject.initializeArgs a =>
      a.dataType < 256 ∧ a.bumpSeed ≠ none ∧ a.bumpSeed.getD 0 < 256
        ∧ a.space < 18446744073709551616 ∧ a.authority.length = 32
  | InstructionArgsObject.updateArgs a =>
      a.dataHash.length = 32 ∧ a.data.length < 4294967296
        ∧ a.offset < 18446744073709551616 ∧ a.dataType < 256
  | InstructionArgsObject.updateAuthorityArgs _ => True
  | InstructionArgsObject.finalizeArgs _ => True
  | InstructionArgsObject.closeArgs _ => True
  | InstructionArgsObject.otherObject _ => False

/-- Two argument objects have the same constructor and equal field
values. -/
def sameFieldValues : InstructionArgsObject → InstructionArgsObject → Bool
  | InstructionArgsObject.initializeArgs a, InstructionArgsObject.initializeArgs b =>
      a.debug == b.debug && a.dataType == b.dataType && a.bumpSeed == b.bumpSeed
        && a.isCreated == b.isCreated && a.space == b.space
        && a.authority == b.authority && a.isDynamic == b.isDynamic
  | InstructionArgsObject.updateArgs a, InstructionArgsObject.updateArgs b =>
      a.debug == b.debug && a.dataHash == b.dataHash && a.data == b.data
        && a.offset == b.offset && a.reallocDown == b.reallocDown
        && a.dataType == b.dataType
  | InstructionArgsObject.updateAuthorityArgs a, InstructionArgsObject.updateAuthorityArgs b =>
      a.debug == b.debug
  | InstructionArgsObject.finalizeArgs a, InstructionArgsObject.finalizeArgs b =>
      a.debug == b.debug
  | InstructionArgsObject.closeArgs a, InstructionArgsObject.closeArgs b =>
      a.debug == b.debug
  | InstructionArgsObject.otherObject n, InstructionArgsObject.otherObject m =>
      n == m
  | _, _ => false

/- ## Helper lemmas -/

theorem sha256_length (msg : List Nat) : (sha256 msg).length = 32 := by
  simp [sha256, u32be]

theorem leVal_u64le (n : Nat) (h : n < 18446744073709551616) :
    leVal (u64le n) = n := by
  simp [leVal, u64le]
  omega

theorem drop_append_len {α : Type} (l₁ l₂ : List α) (k : Nat) :
    (l₁ ++ l₂).drop (l₁.length + k) = l₂.drop k := by
  induction l₁ with
  | nil => simp
  | cons a t ih => simp [Nat.succ_add, ih]

theorem writeU8_ok_or (n : Nat) :
    (∃ bs, writeU8 n = Except.ok bs) ∨ writeU8 n = Except.error "u8 out of range" := by
  unfold writeU8
  split <;> simp

theorem writeOptU8_ok_or (o : Option Nat) :
    (∃ bs, writeOptU8 o = Except.ok bs)
      ∨ writeOptU8 o = Except.error "Cannot serialize undefined as u8"
      ∨ writeOptU8 o = Except.error "u8 out of range" := by
  rcases o with _ | n
  · simp [writeOptU8]
  · rcases writeU8_ok_or n with ⟨bs, h⟩ | h <;> simp [writeOptU8, h]

theorem writeU64_ok_or (n : Nat) :
    (∃ bs, writeU64 n = Except.ok bs) ∨ writeU64 n = Except.error "u64 out of range" := by
  unfold writeU64
  split <;> simp

theorem writeFixedBytes_ok_or (len : Nat) (bs : List Nat) :
    (∃ r, writeFixedBytes len bs = Except.ok r)
      ∨ writeFixedBytes len bs = Except.error "Expecting byte array of fixed length" := by
  unfold writeFixedBytes
  split <;> simp

theorem writeU32_ok_or (n : Nat) :
    (∃ bs, writeU32 n = Except.ok bs) ∨ writeU32 n = Except.error "u32 out of range" := by
  unfold writeU32
  split <;> simp

theorem writeVecBytes_ok_or (bs : List Nat) :
    (∃ r, writeVecBytes bs = Except.ok r)
      ∨ writeVecBytes bs = Except.error "u32 out of range" := by
  rcases writeU32_ok_or bs.length with ⟨r, h⟩ | h <;> simp [writeVecBytes, h]

theorem serializeInitializeDataStoreArgs_ne_schemaNotFound (a : InitializeDataStoreArgs) :
    serializeInitializeDataStoreArgs a ≠ Except.error "Schema not found for instruction" := by
  rcases writeU8_ok_or a.dataType with ⟨x1, h1⟩ | h1 <;>
  rcases writeOptU8_ok_or a.bumpSeed with ⟨x2, h2⟩ | h2 | h2 <;>
  rcases writeU64_ok_or a.space with ⟨x3, h3⟩ | h3 <;>
  rcases writeFixedBytes_ok_or 32 a.authority with ⟨x4, h4⟩ | h4 <;>
  simp [serializeInitializeDataStoreArgs, h1, h2, h3, h4]

theorem serializeUpdateDataStoreArgs_ne_schemaNotFound (a : UpdateDataStoreArgs) :
    serializeUpdateDataStoreArgs a ≠ Except.error "Schema not found for instruction" := by
  rcases writeFixedBytes_ok_or 32 a.dataHash with ⟨x1, h1⟩ | h1 <;>
  rcases writeVecBytes_ok_or a.data with ⟨x2, h2⟩ | h2 <;>
  rcases writeU64_ok_or a.offset with ⟨x3, h3⟩ | h3 <;>
  rcases writeU8_ok_or a.dataType with ⟨x4, h4⟩ | h4 <;>
  simp [serializeUpdateDataStoreArgs, h1, h2, h3, h4]

theorem readsOfShape (dt st bs dyn : Nat) (auth hash tail : List Nat)
    (h1 : auth.length = 32) (h2 : hash.length = 32) :
    readU8At ([dt] ++ auth ++ [st] ++ [bs] ++ hash ++ [dyn] ++ tail) 0 = dt
    ∧ readBytesAt ([dt] ++ auth ++ [st] ++ [bs] ++ hash ++ [dyn] ++ tail) 1 32 = auth
    ∧ readU8At ([dt] ++ auth ++ [st] ++ [bs] ++ hash ++ [dyn] ++ tail) 33 = st
    ∧ readU8At ([dt] ++ auth ++ [st] ++ [bs] ++ hash ++ [dyn] ++ tail) 34 = bs
    ∧ readBytesAt ([dt] ++ auth ++ [st] ++ [bs] ++ hash ++ [dyn] ++ tail) 35 32 = hash
    ∧ readU8At ([dt] ++ auth ++ [st] ++ [bs] ++ hash ++ [dyn] ++ tail) 67 = dyn
    ∧ readBytesAt ([dt] ++ auth ++ [st] ++ [bs] ++ hash ++ [dyn] ++ tail) 68 8 = tail.take 8 := by
  refine ⟨?_, ?_, ?_, ?_, ?_, ?_, ?_⟩ <;>
  simp [readU8At, readBytesAt, List.drop_append_eq_append_drop,
    List.take_append_eq_append_take, List.drop_eq_nil_of_le,
    List.take_of_length_le, h1, h2]

/- ## The claims -/

/-- C1: the claim states that `DataStoreProgram.initializeDataStore` attaches
the 45-byte creation payload debug ‖ type ‖ bump ‖ created ‖ size(u64 LE) ‖
authority(32) ‖ dynamic, with the bump byte the PDA's bump seed.  The layout
holds of `createInitializeDataStoreInstruction` when a bump seed is supplied
(first conjunct), but `initializeDataStore` itself omits `bumpSeed` when it
builds the argument record — against the TypeScript signature it calls — so
the serializer meets an undefined `u8` and payload serialization always fails
(second conjunct): the instruction never carries the claimed bytes. -/
theorem initializeDataStore_payload_c1
    (feePayer dataAccount authority : PublicKey) (dataType : Nat)
    (isCreated : Bool) (space : Nat) (isDynamic : Bool) (debug : Option Bool)
    (dbg isC dyn : Bool) (dt bsd sp : Nat) (auth : List Nat)
    (hdt : dt < 256) (hbs : bsd < 256) (hsp : sp < 18446744073709551616)
    (ha : auth.length = 32) :
    (createInitializeDataStoreInstruction dbg dt (some bsd) isC sp auth dyn =
        Except.ok (boolByte dbg ++ [dt] ++ [bsd] ++ boolByte isC ++ u64le sp
          ++ auth ++ boolByte dyn)
      ∧ (boolByte dbg ++ [dt] ++ [bsd] ++ boolByte isC ++ u64le sp ++ auth
          ++ boolByte dyn).length = 45)
    ∧ (DataStoreProgram.initializeDataStore feePayer dataAccount authority
        dataType isCreated space isDynamic debug).toOption.map
          (fun r => exceptOk r.data)
        = (DataStoreProgram.getPDA dataAccount).toOption.map (fun _ => false) := by
  constructor
  · constructor
    · simp [createInitializeDataStoreInstruction, serializeInstructionData,
        serializeInitializeDataStoreArgs, writeU8, writeOptU8, writeU64,
        writeFixedBytes, hdt, hbs, hsp, ha]
    · simp [boolByte, u64le, ha]
  · cases hp : DataStoreProgram.getPDA dataAccount with
    | error e => simp [DataStoreProgram.initializeDataStore, hp, Except.toOption]
    | ok pb =>
        obtain ⟨pda, bump⟩ := pb
        rcases writeU8_ok_or dataType with ⟨x1, h1⟩ | h1 <;>
        simp [DataStoreProgram.initializeDataStore, hp, Except.toOption,
          createInitializeDataStoreInstruction, serializeInstructionData,
          serializeInitializeDataStoreArgs, writeOptU8, h1, exceptOk]

/-- C1 witness. -/
theorem initializeDataStore_payload_c1_witness :
    (3 < 256 ∧ 254 < 256 ∧ 1000 < 18446744073709551616
      ∧ (List.replicate 32 9).length = 32)
    ∧ ((createInitializeDataStoreInstruction true 3 (some 254) false 1000
          (List.replicate 32 9) true =
        Except.ok (boolByte true ++ [3] ++ [254] ++ boolByte false ++ u64le 1000
          ++ List.replicate 32 9 ++ boolByte true)
      ∧ (boolByte true ++ [3] ++ [254] ++ boolByte false ++ u64le 1000
          ++ List.replicate 32 9 ++ boolByte true).length = 45)
    ∧ (DataStoreProgram.initializeDataStore ⟨List.replicate 32 1⟩
        ⟨List.replicate 32 2⟩ ⟨List.replicate 32 9⟩ 3 false 1000 true
        (some true)).toOption.map (fun r => exceptOk r.data)
        = (DataStoreProgram.getPDA ⟨List.replicate 32 2⟩).toOption.map
            (fun _ => false)) :=
  ⟨⟨by decide, by decide, by decide, by decide⟩,
    initializeDataStore_payload_c1 ⟨List.replicate 32 1⟩ ⟨List.replicate 32 2⟩
      ⟨List.replicate 32 9⟩ 3 false 1000 true (some true) true false true 3 254
      1000 (List.replicate 32 9) (by decide) (by decide) (by decide) (by decide)⟩

/-- C2: `createUpdateDataStoreInstruction` returns the byte sequence
debug flag (1) ‖ SHA-256 of the data (32) ‖ u32-LE length prefix and the
data (4 + n) ‖ offset as u64 LE (8) ‖ reallocDown flag (1) ‖ type tag (1),
47 + n bytes in total. -/
theorem createUpdateDataStoreInstruction_payload_c2
    (debug : Bool) (data : List Nat) (offset : Nat) (reallocDown : Bool)
    (dataType : Nat) (hoff : offset < 18446744073709551616)
    (hdt : dataType < 256) (hlen : data.length < 4294967296) :
    createUpdateDataStoreInstruction debug data offset reallocDown dataType =
      Except.ok (boolByte debug ++ sha256 data ++ u32le data.length ++ data
        ++ u64le offset ++ boolByte reallocDown ++ [dataType])
    ∧ (boolByte debug ++ sha256 data ++ u32le data.length ++ data
        ++ u64le offset ++ boolByte reallocDown ++ [dataType]).length
      = 47 + data.length := by
  constructor
  · simp [createUpdateDataStoreInstruction, serializeInstructionData,
      serializeUpdateDataStoreArgs, calculateDataHash, writeFixedBytes,
      writeVecBytes, writeU32, writeU64, writeU8, sha256_length, hoff, hdt, hlen]
  · simp [boolByte, u32le, u64le, sha256_length]
    omega

/-- C2 witness. -/
theorem createUpdateDataStoreInstruction_payload_c2_witness :
    (5 < 18446744073709551616 ∧ 1 < 256 ∧ ([10, 20, 30] : List Nat).length < 4294967296)
    ∧ (createUpdateDataStoreInstruction false [10, 20, 30] 5 true 1 =
        Except.ok (boolByte false ++ sha256 [10, 20, 30] ++ u32le 3 ++ [10, 20, 30]
          ++ u64le 5 ++ boolByte true ++ [1])
      ∧ (boolByte false ++ sha256 [10, 20, 30] ++ u32le 3 ++ [10, 20, 30]
          ++ u64le 5 ++ boolByte true ++ [1]).length = 47 + 3) :=
  ⟨⟨by decide, by decide, by decide⟩,
    createUpdateDataStoreInstruction_payload_c2 false [10, 20, 30] 5 true 1
      (by decide) (by decide) (by decide)⟩

/-- C3: the authority-change, finalize and close builders each produce a
one-byte payload holding only the debug flag, 1 for true and 0 for false:
the low-level builders return exactly that byte, and each
`DataStoreProgram` method attaches exactly that byte whenever it returns
an instruction. -/
theorem singleByte_builders_c3 (debug : Bool)
    (oldAuthority dataAccount newAuthority authority : PublicKey) :
    createUpdateAuthorityInstruction debug = Except.ok [if debug then 1 else 0]
    ∧ createFinalizeInstruction debug = Except.ok [if debug then 1 else 0]
    ∧ borshSerialize debug = [if debug then 1 else 0]
    ∧ (DataStoreProgram.updateDataStoreAuthority oldAuthority dataAccount
        newAuthority (some debug)).toOption.map (fun r => r.data)
      = (DataStoreProgram.getPDA dataAccount).toOption.map
          (fun _ => Except.ok [if debug then 1 else 0])
    ∧ (DataStoreProgram.finalizeDataStore authority dataAccount
        (some debug)).toOption.map (fun r => r.data)
      = (DataStoreProgram.getPDA dataAccount).toOption.map
          (fun _ => Except.ok [if debug then 1 else 0])
    ∧ (DataStoreProgram.closeDataStore authority dataAccount
        (some debug)).toOption.map (fun r => r.data)
      = (DataStoreProgram.getPDA dataAccount).toOption.map
          (fun _ => Except.ok [if debug then 1 else 0]) := by
  refine ⟨by simp [createUpdateAuthorityInstruction, serializeInstructionData, boolByte],
    by simp [createFinalizeInstruction, serializeInstructionData, boolByte],
    by simp [borshSerialize, boolByte], ?_, ?_, ?_⟩ <;>
  cases hp : DataStoreProgram.getPDA dataAccount <;>
  simp [DataStoreProgram.updateDataStoreAuthority, DataStoreProgram.finalizeDataStore,
    DataStoreProgram.closeDataStore, createUpdateAuthorityInstruction,
    createFinalizeInstruction, serializeInstructionData, borshSerialize,
    boolByte, hp, Except.toOption]

/-- C4 counterexample: an account info whose data buffer is the single byte 0
is non-empty, yet `parseMetadataFromAccountInfo` does not return a decoded
metadata record for it (decoding fails on the short buffer), refuting the
claim that every non-empty buffer decodes. -/
theorem parseMetadataFromAccountInfo_c4_counterexample :
    (([0] : List Nat) ≠ [])
    ∧ exceptOk (DataStoreProgram.parseMetadataFromAccountInfo (some ⟨[0]⟩)) = false := by
  decide

/-- C4 (amended): `parseMetadataFromAccountInfo` raises
`Invalid metadata account data` exactly on a null account info or an empty
data buffer; and for every account info whose buffer holds a full 76-byte
metadata record it returns the decoded record — data type, base58 authority,
status, bump seed, 32-byte hash, dynamic flag and 64-bit LE space count, in
the layout's field order. -/
theorem parseMetadataFromAccountInfo_c4 (info : Option AccountInfo)
    (i : AccountInfo) (h76 : 76 ≤ i.data.length) :
    (DataStoreProgram.parseMetadataFromAccountInfo info
        = Except.error "Invalid metadata account data"
      ↔ info = none ∨ ∃ j, info = some j ∧ j.data = [])
    ∧ DataStoreProgram.parseMetadataFromAccountInfo (some i)
        = Except.ok
            { dataType := readU8At i.data 0,
              authority := base58Encode (readBytesAt i.data 1 32),
              dataStatus := readU8At i.data 33, bumpSeed := readU8At i.data 34,
              dataHash := readBytesAt i.data 35 32,
              isDynamic := readU8At i.data 67 != 0,
              space := leVal (readBytesAt i.data 68 8) } := by
  have hne : ¬ ("Failed to deserialize metadata account"
      = "Invalid metadata account data") := by decide
  constructor
  · rcases info with _ | j
    · simp [DataStoreProgram.parseMetadataFromAccountInfo]
    · by_cases hz : j.data.length = 0
      · simp [DataStoreProgram.parseMetadataFromAccountInfo, hz,
          List.length_eq_zero.mp hz]
      · by_cases hlt : j.data.length < 76 <;>
        simp [DataStoreProgram.parseMetadataFromAccountInfo, hz, borshDeserialize,
          hlt, hne, ← List.length_eq_zero]
  · have hz : ¬ i.data.length = 0 := by omega
    have hlt : ¬ i.data.length < 76 := by omega
    simp [DataStoreProgram.parseMetadataFromAccountInfo, hz, borshDeserialize, hlt]

/-- C4 witness. -/
theorem parseMetadataFromAccountInfo_c4_witness :
    76 ≤ (List.replicate 76 0).length
    ∧ ((DataStoreProgram.parseMetadataFromAccountInfo none
          = Except.error "Invalid metadata account data"
        ↔ (none : Option AccountInfo) = none
            ∨ ∃ j, (none : Option AccountInfo) = some j ∧ j.data = [])
      ∧ DataStoreProgram.parseMetadataFromAccountInfo (some ⟨List.replicate 76 0⟩)
          = Except.ok
              { dataType := readU8At (List.replicate 76 0) 0,
                authority := base58Encode (readBytesAt (List.replicate 76 0) 1 32),
                dataStatus := readU8At (List.replicate 76 0) 33,
                bumpSeed := readU8At (List.replicate 76 0) 34,
                dataHash := readBytesAt (List.replicate 76 0) 35 32,
                isDynamic := readU8At (List.replicate 76 0) 67 != 0,
                space := leVal (readBytesAt (List.replicate 76 0) 68 8) }) :=
  ⟨by decide, parseMetadataFromAccountInfo_c4 none ⟨List.replicate 76 0⟩ (by decide)⟩

/-- C5 counterexample: an `UpdateDataStoreArgs` instance whose `dataHash`
is empty belongs to a registered class, yet `serializeInstructionData`
fails on it (the 32-byte fixed array check), refuting the claim that a
registered constructor always serializes without failing. -/
theorem serializeInstructionData_c5_counterexample :
    schemaRegistered (InstructionArgsObject.updateArgs ⟨false, [], [], 0, false, 0⟩) = true
    ∧ exceptOk (serializeInstructionData
        (InstructionArgsObject.updateArgs ⟨false, [], [], 0, false, 0⟩)) = false := by
  decide

/-- C5 (amended): `serializeInstructionData` raises
`Schema not found for instruction` exactly when the argument's constructor
is not one of the five registered classes; and when the constructor is
registered and every field is a defined value fitting its schema type, it
returns the serialized bytes without failing. -/
theorem serializeInstructionData_c5 (o : InstructionArgsObject) :
    (serializeInstructionData o = Except.error "Schema not found for instruction"
      ↔ schemaRegistered o = false)
    ∧ (wellFormedArgs o → exceptOk (serializeInstructionData o) = true) := by
  rcases o with a | a | a | a | a | n
  · refine ⟨?_, ?_⟩
    · simpa [serializeInstructionData, schemaRegistered] using
        serializeInitializeDataStoreArgs_ne_schemaNotFound a
    · rintro ⟨h1, h2, h3, h4, h5⟩
      rcases hb : a.bumpSeed with _ | b
      · exact absurd hb h2
      · rw [hb] at h3
        simp only [Option.getD_some] at h3
        simp [serializeInstructionData, serializeInitializeDataStoreArgs,
          writeU8, writeOptU8, writeU64, writeFixedBytes, hb, h1, h3, h4, h5,
          exceptOk]
  · refine ⟨?_, ?_⟩
    · simpa [serializeInstructionData, schemaRegistered] using
        serializeUpdateDataStoreArgs_ne_schemaNotFound a
    · rintro ⟨h1, h2, h3, h4⟩
      simp [serializeInstructionData, serializeUpdateDataStoreArgs, writeU8,
        writeFixedBytes, writeVecBytes, writeU32, writeU64, h1, h2, h3, h4,
        exceptOk]
  · exact ⟨by simp [serializeInstructionData, schemaRegistered],
      fun _ => by simp [serializeInstructionData, exceptOk]⟩
  · exact ⟨by simp [serializeInstructionData, schemaRegistered],
      fun _ => by simp [serializeInstructionData, exceptOk]⟩
  · exact ⟨by simp [serializeInstructionData, schemaRegistered],
      fun _ => by simp [serializeInstructionData, exceptOk]⟩
  · exact ⟨by simp [serializeInstructionData, schemaRegistered],
      fun h => h.elim⟩

/-- C5 witness. -/
theorem serializeInstructionData_c5_witness :
    wellFormedArgs (InstructionArgsObject.finalizeArgs ⟨false⟩)
    ∧ ((serializeInstructionData (InstructionArgsObject.finalizeArgs ⟨false⟩)
          = Except.error "Schema not found for instruction"
        ↔ schemaRegistered (InstructionArgsObject.finalizeArgs ⟨false⟩) = false)
      ∧ exceptOk (serializeInstructionData
          (InstructionArgsObject.finalizeArgs ⟨false⟩)) = true) :=
  ⟨trivial, (serializeInstructionData_c5 (InstructionArgsObject.finalizeArgs ⟨false⟩)).1,
    (serializeInstructionData_c5 (InstructionArgsObject.finalizeArgs ⟨false⟩)).2 trivial⟩

/-- C6: encoding a metadata record in the documented layout and decoding it
through `parseMetadataFromAccountInfo` reproduces the exact structured field
values (the authority in its base58 string form), and encoding a concrete
creation-argument structure reproduces its exact expected byte sequence. -/
theorem metadataRoundtrip_c6 (dataType dataStatus bumpSeed : Nat)
    (authority dataHash : List Nat) (isDynamic : Bool) (space : Nat)
    (hdt : dataType < 256) (hst : dataStatus < 256) (hbsd : bumpSeed < 256)
    (ha : authority.length = 32) (hh : dataHash.length = 32)
    (hsp : space < 18446744073709551616) :
    DataStoreProgram.parseMetadataFromAccountInfo
        (some ⟨serializeMetadata dataType authority dataStatus bumpSeed dataHash
          isDynamic space⟩)
      = Except.ok
          { dataType := dataType, authority := base58Encode authority,
            dataStatus := dataStatus, bumpSeed := bumpSeed, dataHash := dataHash,
            isDynamic := isDynamic, space := space }
    ∧ serializeInstructionData (InstructionArgsObject.initializeArgs
        ⟨true, 1, some 255, false, 258, List.replicate 32 7, true⟩)
      = Except.ok ([1, 1, 255, 0, 2, 1, 0, 0, 0, 0, 0, 0]
          ++ List.replicate 32 7 ++ [1]) := by
  constructor
  · have hs : serializeMetadata dataType authority dataStatus bumpSeed dataHash
        isDynamic space
        = [dataType] ++ authority ++ [dataStatus] ++ [bumpSeed] ++ dataHash
          ++ [if isDynamic then 1 else 0] ++ u64le space := by
      simp [serializeMetadata, boolByte]
    have hlen : (serializeMetadata dataType authority dataStatus bumpSeed dataHash
        isDynamic space).length = 76 := by
      simp [serializeMetadata, boolByte, u64le, ha, hh]
    obtain ⟨r0, r1, r33, r34, r35, r67, r68⟩ :=
      readsOfShape dataType dataStatus bumpSeed (if isDynamic then 1 else 0)
        authority dataHash (u64le space) ha hh
    have hz : ¬ (serializeMetadata dataType authority dataStatus bumpSeed dataHash
        isDynamic space).length = 0 := by omega
    have hlt : ¬ (serializeMetadata dataType authority dataStatus bumpSeed dataHash
        isDynamic space).length < 76 := by omega
    have hdyn : (((if isDynamic then (1 : Nat) else 0)) != 0) = isDynamic := by
      cases isDynamic <;> simp
    have htake : (u64le space).take 8 = u64le space := by simp [u64le]
    have hspace : leVal ((u64le space).take 8) = space := by
      rw [htake]
      exact leVal_u64le space hsp
    have hdeser : borshDeserialize (serializeMetadata dataType authority
        dataStatus bumpSeed dataHash isDynamic space)
        = Except.ok (dataType, authority, dataStatus, bumpSeed, dataHash,
            isDynamic, space) := by
      unfold borshDeserialize
      rw [if_neg hlt, hs, r0, r1, r33, r34, r35, r67, r68, hdyn, hspace]
    simp [DataStoreProgram.parseMetadataFromAccountInfo, hz, hdeser]
  · rfl

/-- C6 witness. -/
theorem metadataRoundtrip_c6_witness :
    (0 < 256 ∧ 1 < 256 ∧ 254 < 256 ∧ (List.replicate 32 9).length = 32
      ∧ (List.replicate 32 3).length = 32 ∧ 1000 < 18446744073709551616)
    ∧ (DataStoreProgram.parseMetadataFromAccountInfo
        (some ⟨serializeMetadata 0 (List.replicate 32 9) 1 254 (List.replicate 32 3)
          true 1000⟩)
      = Except.ok
          { dataType := 0, authority := base58Encode (List.replicate 32 9),
            dataStatus := 1, bumpSeed := 254, dataHash := List.replicate 32 3,
            isDynamic := true, space := 1000 }
    ∧ serializeInstructionData (InstructionArgsObject.initializeArgs
        ⟨true, 1, some 255, false, 258, List.replicate 32 7, true⟩)
      = Except.ok ([1, 1, 255, 0, 2, 1, 0, 0, 0, 0, 0, 0]
          ++ List.replicate 32 7 ++ [1])) :=
  ⟨⟨by decide, by decide, by decide, by decide, by decide, by decide⟩,
    metadataRoundtrip_c6 0 1 254 (List.replicate 32 9) (List.replicate 32 3) true
      1000 (by decide) (by decide) (by decide) (by decide) (by decide) (by decide)⟩

/-- C7: instruction encoding is deterministic — two argument objects of the
same registered class with equal field values serialize to identical byte
sequences, the output depending on nothing but the constructor and those
field values. -/
theorem serializeInstructionData_deterministic_c7 (o₁ o₂ : InstructionArgsObject)
    (h : sameFieldValues o₁ o₂ = true) :
    serializeInstructionData o₁ = serializeInstructionData o₂ := by
  rcases o₁ with a | a | a | a | a | n <;> rcases o₂ with b | b | b | b | b | m <;>
  simp_all [sameFieldValues, serializeInstructionData,
    serializeInitializeDataStoreArgs, serializeUpdateDataStoreArgs]

/-- C7 witness. -/
theorem serializeInstructionData_deterministic_c7_witness :
    sameFieldValues
        (InstructionArgsObject.updateArgs ⟨true, List.replicate 32 5, [1, 2], 3, false, 0⟩)
        (InstructionArgsObject.updateArgs ⟨true, List.replicate 32 5, [1, 2], 3, false, 0⟩)
      = true
    ∧ serializeInstructionData
        (InstructionArgsObject.updateArgs ⟨true, List.replicate 32 5, [1, 2], 3, false, 0⟩)
      = serializeInstructionData
          (InstructionArgsObject.updateArgs ⟨true, List.replicate 32 5, [1, 2], 3, false, 0⟩) :=
  ⟨by decide, serializeInstructionData_deterministic_c7 _ _ (by decide)⟩

/-- C8: the metadata PDA is a deterministic function of the data account's
identity — equal key bytes give equal `[address, bump]` results, and the
result is exactly the program-derived-address search seeded by the fixed
`data_store` label, the key bytes and the fixed program id. -/
theorem getPDA_deterministic_c8 (k₁ k₂ : PublicKey) (h : k₁.bytes = k₂.bytes) :
    DataStoreProgram.getPDA k₁ = DataStoreProgram.getPDA k₂
    ∧ DataStoreProgram.getPDA k₁ =
        findProgramAddressSync [pdaSeedBytes, k₁.bytes] dataStoreProgramIdBytes := by
  cases k₁ with
  | mk b₁ =>
      cases k₂ with
      | mk b₂ =>
          simp only [] at h
          subst h
          exact ⟨rfl, rfl⟩

/-- C8 witness. -/
theorem getPDA_deterministic_c8_witness :
    (PublicKey.mk (List.replicate 32 1)).bytes = (PublicKey.mk (List.replicate 32 1)).bytes
    ∧ (DataStoreProgram.getPDA ⟨List.replicate 32 1⟩
        = DataStoreProgram.getPDA ⟨List.replicate 32 1⟩
      ∧ DataStoreProgram.getPDA ⟨List.replicate 32 1⟩ =
          findProgramAddressSync [pdaSeedBytes, (PublicKey.mk (List.replicate 32 1)).bytes]
            dataStoreProgramIdBytes) :=
  ⟨rfl, getPDA_deterministic_c8 ⟨List.replicate 32 1⟩ ⟨List.replicate 32 1⟩ rfl⟩

/-- C9: whenever `initializeDataStore` returns an instruction, its key list
is exactly: the fee payer as a writable signer, the data account writable
and a signer exactly when `isCreated` is false, the derived PDA writable
and never a signer, and the system program read-only and never a signer. -/
theorem initializeDataStore_keys_c9 (feePayer dataAccount authority : PublicKey)
    (dataType : Nat) (isCreated : Bool) (space : Nat) (isDynamic : Bool)
    (debug : Option Bool) :
    (DataStoreProgram.initializeDataStore feePayer dataAccount authority dataType
        isCreated space isDynamic debug).toOption.map (fun r => r.keys)
      = (DataStoreProgram.getPDA dataAccount).toOption.map
          (fun pb => [⟨feePayer.bytes, true, true⟩,
                      ⟨dataAccount.bytes, !isCreated, true⟩,
                      ⟨pb.1, false, true⟩,
                      ⟨systemProgramId, false, false⟩]) := by
  cases hp : DataStoreProgram.getPDA dataAccount with
  | error e => simp [DataStoreProgram.initializeDataStore, hp, Except.toOption]
  | ok pb =>
      obtain ⟨pda, bump⟩ := pb
      simp [DataStoreProgram.initializeDataStore, hp, Except.toOption]

/-- C10: for each of the five `DataStoreProgram` builders, passing no debug
value (JavaScript `undefined`) yields exactly the same instruction as
passing `debug = false` — in particular the same instruction data. -/
theorem defaultDebug_c10
    (feePayer dataAccount authority oldAuthority newAuthority : PublicKey)
    (dataType : Nat) (isCreated : Bool) (space : Nat) (isDynamic : Bool)
    (data : List Nat) (offset : Nat) (reallocDown : Bool) :
    DataStoreProgram.initializeDataStore feePayer dataAccount authority dataType
        isCreated space isDynamic none
      = DataStoreProgram.initializeDataStore feePayer dataAccount authority dataType
          isCreated space isDynamic (some false)
    ∧ DataStoreProgram.updateDataStore authority dataAccount data offset
        reallocDown dataType none
      = DataStoreProgram.updateDataStore authority dataAccount data offset
          reallocDown dataType (some false)
    ∧ DataStoreProgram.updateDataStoreAuthority oldAuthority dataAccount
        newAuthority none
      = DataStoreProgram.updateDataStoreAuthority oldAuthority dataAccount
          newAuthority (some false)
    ∧ DataStoreProgram.finalizeDataStore authority dataAccount none
      = DataStoreProgram.finalizeDataStore authority dataAccount (some false)
    ∧ DataStoreProgram.closeDataStore authority dataAccount none
      = DataStoreProgram.closeDataStore authority dataAccount (some false) :=
  ⟨rfl, rfl, rfl, rfl, rfl⟩
